import Mathlib

/-!
Verification of the data-access core of the memory-trails app: the HTTP
error normalizer and retry executor of BaseService, the diary-page
pagination state machine, and the favorite-toggle paths.

Shallow embedding conventions: the Transport Layer is modelled by a script,
a list of outcomes consumed one per call, so the number of consumed
entries is the number of Transport Layer calls. Observable subscriptions
are modelled by an explicit list of pending fetches on the component
state; a completion event applies the subscription handler of the
corresponding fetch.
-/

namespace MemoryTrails

/-! ## Error bodies and normalization (base.service.ts) -/

/-- The shape of the payload attached to a failed HTTP response, as the
normalizer inspects it: an ErrorEvent (client-side failure), a JSON object
whose message field (when a string) and errors field (when an array) are
recorded, or anything else. -/
inductive ErrBody where
  | errorEvent (msg : String)
  | obj (message : Option String) (errors : Option (List String))
  | nonObj
deriving DecidableEq, Repr

/-- HttpErrorResponse: status code plus the error payload. -/
structure HttpErrorResponse where
  status : Nat
  body : ErrBody
deriving DecidableEq, Repr

/-- The message field of the body, when the body is an object holding a
string there. -/
def ErrBody.messageField : ErrBody → Option String
  | .obj m _ => m
  | _ => none

/-- The errors field of the body, when the body is an object holding an
array there. -/
def ErrBody.errorsField : ErrBody → Option (List String)
  | .obj _ es => es
  | _ => none

/-- BaseService._getDefaultErrorMessage: the status-keyed table of default
messages, any other status mapping to the generic unknown-error message. -/
def getDefaultErrorMessage (status : Nat) : String :=
  if status = 400 then "Requisição inválida"
  else if status = 401 then "Não autorizado"
  else if status = 403 then "Acesso negado"
  else if status = 404 then "Recurso não encontrado"
  else if status = 409 then "Conflito de dados"
  else if status = 422 then "Dados inválidos"
  else if status = 500 then "Erro interno do servidor"
  else if status = 502 then "Servidor indisponível"
  else if status = 503 then "Serviço temporariamente indisponível"
  else "Erro desconhecido"

/-- BaseService._extractErrorMessage: a string message field is used
verbatim; otherwise the first element of a present non-empty errors
array; otherwise the status-keyed default. -/
def extractErrorMessage (e : HttpErrorResponse) : String :=
  match e.body with
  | .obj m es =>
    match m with
    | some s => s
    | none =>
      match es with
      | some (x :: _) => x
      | _ => getDefaultErrorMessage e.status
  | _ => getDefaultErrorMessage e.status

/-- IApiError: the normalized error surfaced to callers. The error field
keeps the cause: the ErrorEvent message on the client-side branch, the
response body otherwise. -/
structure IApiError where
  message : String
  status : Nat
  error : String ⊕ ErrBody
deriving DecidableEq, Repr

/-- BaseService._handleError: an ErrorEvent payload becomes the fixed
connection-error message with status 0; any other failure keeps its status
and extracts a message from the body. -/
def handleError (e : HttpErrorResponse) : IApiError :=
  match e.body with
  | .errorEvent msg =>
    { message := "Erro de conexão. Verifique sua internet."
      status := 0
      error := .inl msg }
  | _ =>
    { message := extractErrorMessage e
      status := e.status
      error := .inr e.body }

/-! ## Retry executor (base.service.ts) -/

/-- One Transport Layer outcome: a typed success or a raw HTTP error. -/
inductive HttpResult (α : Type) where
  | ok (v : α)
  | err (e : HttpErrorResponse)
deriving DecidableEq, Repr

/-- BaseService._shouldRetry: no retry once the attempt count reaches
retryAttempts; otherwise retry exactly for network failures (status 0) and
5xx server errors. -/
def shouldRetry (retryAttempts : Nat) (e : HttpErrorResponse) (attempt : Nat) : Bool :=
  if attempt ≥ retryAttempts then false
  else e.status == 0 || (decide (500 ≤ e.status) && decide (e.status < 600))

/-- BaseService._calculateRetryDelay: pure exponential backoff. -/
def calculateRetryDelay (retryDelay attempt : Nat) : Nat :=
  retryDelay * 2 ^ attempt

/-- The terminal outcome of a request, paired with the number of Transport
Layer calls it consumed. -/
abbrev RunResult (α : Type) := Except IApiError α × Nat

/-- BaseService._executeWithRetry over a transport script: each invocation
of requestFn consumes the next script entry; a failure is retried when
_shouldRetry allows it and otherwise normalized by _handleError. Returns
none when the script is exhausted before the request settles. -/
def executeWithRetry (retryAttempts attempt : Nat) :
    List (HttpResult α) → Option (RunResult α)
  | [] => none
  | .ok v :: _ => some (.ok v, 1)
  | .err e :: rest =>
    if shouldRetry retryAttempts e attempt then
      match executeWithRetry retryAttempts (attempt + 1) rest with
      | some (r, n) => some (r, n + 1)
      | none => none
    else some (.error (handleError e), 1)

/-- BaseService.get routes through _executeWithRetry starting at attempt 0. -/
def getRequest (retryAttempts : Nat) (script : List (HttpResult α)) : Option (RunResult α) :=
  executeWithRetry retryAttempts 0 script

/-- BaseService.delete routes through _executeWithRetry starting at attempt 0. -/
def deleteRequest (retryAttempts : Nat) (script : List (HttpResult α)) : Option (RunResult α) :=
  executeWithRetry retryAttempts 0 script

/-- BaseService.post: a single Transport Layer call whose failure is
normalized by _handleError, never retried. -/
def postRequest : List (HttpResult α) → Option (RunResult α)
  | [] => none
  | .ok v :: _ => some (.ok v, 1)
  | .err e :: _ => some (.error (handleError e), 1)

/-- BaseService.put: a single Transport Layer call, never retried. -/
def putRequest : List (HttpResult α) → Option (RunResult α)
  | [] => none
  | .ok v :: _ => some (.ok v, 1)
  | .err e :: _ => some (.error (handleError e), 1)

/-- BaseService.patch: a single Transport Layer call, never retried. -/
def patchRequest : List (HttpResult α) → Option (RunResult α)
  | [] => none
  | .ok v :: _ => some (.ok v, 1)
  | .err e :: _ => some (.error (handleError e), 1)

/-- A failure the executor treats as transient: network failure (status 0)
or a 5xx server error. -/
def retryableErr (e : HttpErrorResponse) : Prop :=
  e.status = 0 ∨ (500 ≤ e.status ∧ e.status < 600)

instance (e : HttpErrorResponse) : Decidable (retryableErr e) := by
  unfold retryableErr; infer_instance

/-! ## RecordsService.toggleFavorite (records service) -/

/-- HTTP verbs used by the entity client. -/
inductive HttpMethod where
  | get | post | put | patch | delete
deriving DecidableEq, Repr

/-- The only body shape toggleFavorite ever sends. -/
structure ToggleFavoriteBody where
  isFavorite : Bool
deriving DecidableEq, Repr

/-- A request description: verb, endpoint path relative to the resource,
and body. -/
structure ApiRequest where
  method : HttpMethod
  path : String
  body : Option ToggleFavoriteBody
deriving DecidableEq, Repr

/-- RecordsService.toggleFavorite: a PATCH to recordId/toggle-favorite
whose body is the literal isFavorite := true, taking only the record id. -/
def toggleFavorite (recordId : Nat) : ApiRequest :=
  { method := .patch
    path := toString recordId ++ "/toggle-favorite"
    body := some { isFavorite := true } }

/-! ## Lemmas about the retry decision -/

/-- A transient failure below the attempt bound is retried. -/
theorem shouldRetry_of_retryable (maxA : Nat) (e : HttpErrorResponse) (attempt : Nat)
    (he : retryableErr e) (hlt : attempt < maxA) :
    shouldRetry maxA e attempt = true := by
  unfold shouldRetry
  rw [if_neg (by omega)]
  rcases he with h0 | ⟨h5, h6⟩
  · simp [h0]
  · simp [h5, h6]

/-- A 4xx failure is never retried. -/
theorem shouldRetry_eq_false_of_client (maxA : Nat) (e : HttpErrorResponse) (attempt : Nat)
    (h4 : 400 ≤ e.status) (h4b : e.status ≤ 499) :
    shouldRetry maxA e attempt = false := by
  unfold shouldRetry
  split
  · rfl
  · have h1 : e.status ≠ 0 := by omega
    have h2 : ¬ (500 ≤ e.status) := by omega
    simp [h1, h2]

/-- Generalized success lemma: from any attempt index whose failure run
stays below the bound, the executor consumes each retryable failure and
then returns the success, making one call per script entry consumed. -/
theorem executeWithRetry_ok_after_failures {α : Type} (maxA : Nat) (v : α)
    (fs : List HttpErrorResponse) :
    ∀ (attempt : Nat) (rest : List (HttpResult α)),
      (∀ e ∈ fs, retryableErr e) → attempt + fs.length ≤ maxA →
      executeWithRetry maxA attempt (fs.map .err ++ (.ok v :: rest)) =
        some (.ok v, fs.length + 1) := by
  induction fs with
  | nil =>
    intro attempt rest _ _
    simp [executeWithRetry]
  | cons e fs ih =>
    intro attempt rest hall hle
    have he : retryableErr e := hall e (by simp)
    have hlt : attempt < maxA := by
      simp only [List.length_cons] at hle; omega
    have hrec := ih (attempt + 1) rest (fun x hx => hall x (by simp [hx]))
      (by simp only [List.length_cons] at hle; omega)
    simp only [List.map_cons, List.cons_append, executeWithRetry,
      shouldRetry_of_retryable maxA e attempt he hlt, if_true, List.append_eq,
      List.length_cons]
    rw [hrec]

/-- C3: for every sequence of k retryable failures (status 0 or 5xx) with
k < maxAttempts followed by a success, the executor returns the success
value and the total number of Transport Layer calls equals k + 1. -/
theorem execute_success_after_k_retryable_failures {α : Type} (maxA : Nat)
    (fs : List HttpErrorResponse) (v : α) (rest : List (HttpResult α))
    (hall : ∀ e ∈ fs, retryableErr e) (hk : fs.length < maxA) :
    executeWithRetry maxA 0 (fs.map .err ++ (.ok v :: rest)) =
      some (.ok v, fs.length + 1) :=
  executeWithRetry_ok_after_failures maxA v fs 0 rest hall (by omega)

/-- Witness for C3: two retryable failures (network, then 503) under
maxAttempts 3 followed by a success yield the success after 3 calls. -/
theorem execute_success_after_k_retryable_failures_witness :
    (∀ e ∈ [(⟨0, ErrBody.nonObj⟩ : HttpErrorResponse), ⟨503, ErrBody.obj none none⟩],
        retryableErr e)
    ∧ ([(⟨0, ErrBody.nonObj⟩ : HttpErrorResponse), ⟨503, ErrBody.obj none none⟩].length < 3)
    ∧ executeWithRetry 3 0
        ([(⟨0, ErrBody.nonObj⟩ : HttpErrorResponse), ⟨503, ErrBody.obj none none⟩].map .err
          ++ ([.ok 42] : List (HttpResult Nat))) = some (.ok 42, 3) :=
  ⟨by decide, by decide,
    execute_success_after_k_retryable_failures 3
      [⟨0, ErrBody.nonObj⟩, ⟨503, ErrBody.obj none none⟩] 42 [] (by decide) (by decide)⟩

/-- C4: a 4xx failure is terminal after exactly one Transport Layer call,
surfacing the normalized error. -/
theorem clientError_terminal_one_call {α : Type} (maxA : Nat) (e : HttpErrorResponse)
    (rest : List (HttpResult α)) (h4 : 400 ≤ e.status) (h4b : e.status ≤ 499) :
    executeWithRetry maxA 0 (.err e :: rest) = some (.error (handleError e), 1) := by
  simp [executeWithRetry, shouldRetry_eq_false_of_client maxA e 0 h4 h4b]

/-- Witness for C4: a 404 settles in one call with the normalized error. -/
theorem clientError_terminal_one_call_witness :
    (400 ≤ (404 : Nat)) ∧ ((404 : Nat) ≤ 499)
    ∧ executeWithRetry 3 0 ([.err ⟨404, ErrBody.obj none none⟩] : List (HttpResult Nat)) =
        some (.error (handleError ⟨404, ErrBody.obj none none⟩), 1) :=
  ⟨by decide, by decide,
    clientError_terminal_one_call 3 ⟨404, ErrBody.obj none none⟩ [] (by decide) (by decide)⟩

/-- C5: GET and DELETE are routed through the retry executor, while POST,
PUT and PATCH settle after exactly one Transport Layer call on every
failure kind; on a retryable failure followed by a success, GET and DELETE
make a second call and succeed while POST fails after its single call. -/
theorem idempotent_verbs_retry_mutating_verbs_do_not :
    (∀ (α : Type) (maxA : Nat) (script : List (HttpResult α)),
        getRequest maxA script = executeWithRetry maxA 0 script
        ∧ deleteRequest maxA script = executeWithRetry maxA 0 script)
    ∧ (∀ (α : Type) (e : HttpErrorResponse) (rest : List (HttpResult α)),
        postRequest (.err e :: rest) = some (.error (handleError e), 1)
        ∧ putRequest (.err e :: rest) = some (.error (handleError e), 1)
        ∧ patchRequest (.err e :: rest) = some (.error (handleError e), 1))
    ∧ (∀ (α : Type) (maxA : Nat) (e : HttpErrorResponse) (v : α)
        (rest : List (HttpResult α)), 1 ≤ maxA → retryableErr e →
        getRequest maxA (.err e :: .ok v :: rest) = some (.ok v, 2)
        ∧ deleteRequest maxA (.err e :: .ok v :: rest) = some (.ok v, 2)
        ∧ postRequest (.err e :: .ok v :: rest) = some (.error (handleError e), 1)) := by
  refine ⟨fun α maxA script => ⟨rfl, rfl⟩, fun α e rest => ⟨rfl, rfl, rfl⟩, ?_⟩
  intro α maxA e v rest h1 he
  have hs : shouldRetry maxA e 0 = true := shouldRetry_of_retryable maxA e 0 he (by omega)
  refine ⟨?_, ?_, rfl⟩
  · simp [getRequest, executeWithRetry, hs]
  · simp [deleteRequest, executeWithRetry, hs]

/-- Witness for C5: with a 500 then a success, GET succeeds on the second
call while POST surfaces the error after one call. -/
theorem idempotent_verbs_retry_witness :
    (1 ≤ 2) ∧ retryableErr ⟨500, ErrBody.nonObj⟩
    ∧ getRequest 2 ([.err ⟨500, ErrBody.nonObj⟩, .ok 7] : List (HttpResult Nat)) =
        some (.ok 7, 2)
    ∧ postRequest ([.err ⟨500, ErrBody.nonObj⟩, .ok 7] : List (HttpResult Nat)) =
        some (.error (handleError ⟨500, ErrBody.nonObj⟩), 1) :=
  ⟨by decide, by decide,
    (idempotent_verbs_retry_mutating_verbs_do_not.2.2 Nat 2 ⟨500, ErrBody.nonObj⟩ 7 []
      (by decide) (by decide)).1,
    (idempotent_verbs_retry_mutating_verbs_do_not.2.2 Nat 2 ⟨500, ErrBody.nonObj⟩ 7 []
      (by decide) (by decide)).2.2⟩

/-- The default message table never yields an empty string. -/
theorem getDefaultErrorMessage_ne_empty (status : Nat) :
    getDefaultErrorMessage status ≠ "" := by
  unfold getDefaultErrorMessage
  split_ifs <;> decide

/-- C8 as stated is false: a response body carrying an empty-string
message field is used verbatim, producing an ApiError whose message is
empty. -/
theorem normalizer_empty_message_counterexample :
    (handleError ⟨404, ErrBody.obj (some "") none⟩).message = "" := rfl

/-- C8 amended: the normalizer follows the stated precedence (string
message field verbatim, else first element of a present non-empty errors
array, else the status-keyed default table with a generic fallback for
unknown statuses), and the produced message is non-empty provided the
body does not itself supply an empty message string or an empty first
errors element. -/
theorem normalizer_precedence_amended :
    (∀ (status : Nat) (s : String) (es : Option (List String)),
        extractErrorMessage ⟨status, .obj (some s) es⟩ = s)
    ∧ (∀ (status : Nat) (x : String) (xs : List String),
        extractErrorMessage ⟨status, .obj none (some (x :: xs))⟩ = x)
    ∧ (∀ status : Nat,
        extractErrorMessage ⟨status, .obj none none⟩ = getDefaultErrorMessage status
        ∧ extractErrorMessage ⟨status, .obj none (some [])⟩ = getDefaultErrorMessage status
        ∧ extractErrorMessage ⟨status, .nonObj⟩ = getDefaultErrorMessage status)
    ∧ (∀ status : Nat, status ∉ ([400, 401, 403, 404, 409, 422, 500, 502, 503] : List Nat) →
        getDefaultErrorMessage status = "Erro desconhecido")
    ∧ (∀ status : Nat, getDefaultErrorMessage status ≠ "")
    ∧ (∀ e : HttpErrorResponse,
        (∀ s, e.body.messageField = some s → s ≠ "") →
        (∀ x xs, e.body.errorsField = some (x :: xs) → x ≠ "") →
        (handleError e).message ≠ "") := by
  refine ⟨fun _ _ _ => rfl, fun _ _ _ => rfl, fun _ => ⟨rfl, rfl, rfl⟩, ?_, ?_, ?_⟩
  · intro status h
    simp only [List.mem_cons, List.not_mem_nil, or_false] at h
    push_neg at h
    obtain ⟨h1, h2, h3, h4, h5, h6, h7, h8, h9⟩ := h
    simp [getDefaultErrorMessage, h1, h2, h3, h4, h5, h6, h7, h8, h9]
  · exact getDefaultErrorMessage_ne_empty
  · intro e h1 h2
    obtain ⟨status, body⟩ := e
    cases body with
    | errorEvent msg =>
      show ("Erro de conexão. Verifique sua internet." : String) ≠ ""
      decide
    | nonObj => exact getDefaultErrorMessage_ne_empty status
    | obj m es =>
      cases m with
      | some s => exact h1 s rfl
      | none =>
        cases es with
        | none => exact getDefaultErrorMessage_ne_empty status
        | some l =>
          cases l with
          | nil => exact getDefaultErrorMessage_ne_empty status
          | cons x xs => exact h2 x xs rfl

/-- Witness for the amended C8: a teapot status with an uninformative
body yields a non-empty message. -/
theorem normalizer_precedence_amended_witness :
    (handleError ⟨418, ErrBody.obj none none⟩).message ≠ "" :=
  normalizer_precedence_amended.2.2.2.2.2 ⟨418, ErrBody.obj none none⟩
    (fun s hs => by simp [ErrBody.messageField] at hs)
    (fun x xs hx => by simp [ErrBody.errorsField] at hx)

/-- C10: toggleFavorite always sends a PATCH to recordId/toggle-favorite
with the constant body isFavorite := true; the body never requests the
false-direction transition and does not depend on any current state. -/
theorem toggleFavorite_constant_true_body (recordId : Nat) :
    (toggleFavorite recordId).method = HttpMethod.patch
    ∧ (toggleFavorite recordId).path = toString recordId ++ "/toggle-favorite"
    ∧ (toggleFavorite recordId).body = some { isFavorite := true }
    ∧ (toggleFavorite recordId).body ≠ some { isFavorite := false } :=
  ⟨rfl, rfl, rfl, by simp [toggleFavorite]⟩

/-! ## Diary page pagination engine (diary-page.component.ts, src/src) -/

/-- IRecord: a stable id, the favorite flag, and an opaque payload field
standing for the remaining record data. -/
structure RecordItem where
  id : Nat
  isFavorite : Bool
  title : String
deriving DecidableEq, Repr

/-- Which subscription handler an in-flight fetch will run on completion:
the one installed by loadInitialRecords or the one by loadMoreRecords. -/
inductive FetchKind where
  | initial
  | more
deriving DecidableEq, Repr

/-- The outcome delivered to an in-flight fetch subscription. -/
inductive FetchOutcome where
  | success (data : List RecordItem)
  | failure (e : IApiError)
deriving DecidableEq, Repr

/-- DiaryPageComponent state. pending lists the in-flight fetches in
dispatch order (each covering its own retries inside the service layer);
calls counts cumulative Transport Layer dispatches from this component. -/
structure DiaryState where
  showOnlyFavorites : Bool
  allRecords : List RecordItem
  filteredRecords : List RecordItem
  isLoading : Bool
  hasMoreRecords : Bool
  page : Nat
  size : Nat
  pending : List FetchKind
  calls : Nat
deriving DecidableEq, Repr

/-- The state fixed by the field initializers of the component, before
ngOnInit runs. -/
def initialDiaryState : DiaryState :=
  { showOnlyFavorites := false
    allRecords := []
    filteredRecords := []
    isLoading := false
    hasMoreRecords := true
    page := 1
    size := 10
    pending := []
    calls := 0 }

/-- DiaryPageComponent._updateFilteredRecords. -/
def updateFilteredRecords (s : DiaryState) : DiaryState :=
  { s with filteredRecords :=
      if s.showOnlyFavorites then s.allRecords.filter (fun r => r.isFavorite)
      else s.allRecords }

/-- DiaryPageComponent._checkIfHasMoreRecords: hasMoreRecords becomes true
exactly when the loaded count equals the requested page size. -/
def checkIfHasMoreRecords (s : DiaryState) (loadedCount : Nat) : DiaryState :=
  { s with hasMoreRecords := loadedCount == s.size }

/-- DiaryPageComponent._removeDuplicates: keep the new records whose id is
not already present among the existing ones. -/
def removeDuplicates (existing newRecords : List RecordItem) : List RecordItem :=
  let existingIds := existing.map (fun r => r.id)
  newRecords.filter (fun r => !(existingIds.contains r.id))

/-- DiaryPageComponent._loadInitialRecords: set the loading flag, rewind to
page 1, clear the collection, assume more records, and dispatch a fetch
whose completion runs the initial handler. -/
def loadInitialRecords (s : DiaryState) : DiaryState :=
  { s with isLoading := true
           page := 1
           allRecords := []
           hasMoreRecords := true
           pending := s.pending ++ [.initial]
           calls := s.calls + 1 }

/-- DiaryPageComponent._loadMoreRecords: a no-op while loading or when no
more records are expected; otherwise sets the loading flag, advances the
page, and dispatches a fetch whose completion runs the more handler. -/
def loadMoreRecords (s : DiaryState) : DiaryState :=
  if s.isLoading || !s.hasMoreRecords then s
  else
    { s with isLoading := true
             page := s.page + 1
             pending := s.pending ++ [.more]
             calls := s.calls + 1 }

/-- DiaryPageComponent._resetAndReload: rewind pagination, clear the
collection, and reload from scratch. No pending fetch is cancelled and no
generation counter exists: pre-reset subscriptions stay alive. -/
def resetAndReload (s : DiaryState) : DiaryState :=
  loadInitialRecords { s with page := 1, allRecords := [], hasMoreRecords := true }

/-- Remove the first pending fetch of the given kind. -/
def removeFirstKind : List FetchKind → FetchKind → List FetchKind
  | [], _ => []
  | k :: ks, target => if k == target then ks else k :: removeFirstKind ks target

/-- Arrival of the response of an in-flight fetch of kind k: runs the next
or error callback of the corresponding subscription and then its finalize,
which clears the loading flag. When no fetch of that kind is pending the
event cannot occur and the state is unchanged. -/
def completeFetch (s : DiaryState) (k : FetchKind) (o : FetchOutcome) : DiaryState :=
  if s.pending.contains k then
    let s0 := { s with pending := removeFirstKind s.pending k }
    match k, o with
    | .initial, .success data =>
      let s1 := updateFilteredRecords { s0 with allRecords := data }
      let s2 := checkIfHasMoreRecords s1 data.length
      { s2 with isLoading := false }
    | .initial, .failure _ =>
      let s1 := updateFilteredRecords { s0 with allRecords := [] }
      { s1 with isLoading := false }
    | .more, .success data =>
      let uniqueNewRecords := removeDuplicates s0.allRecords data
      let s1 := updateFilteredRecords
        { s0 with allRecords := s0.allRecords ++ uniqueNewRecords }
      let s2 := checkIfHasMoreRecords s1 data.length
      { s2 with isLoading := false }
    | .more, .failure _ =>
      { s0 with page := s0.page - 1, isLoading := false }
  else s

/-- The external events driving the component: a scroll trigger past the
threshold (onScroll calling loadMoreRecords), a favorites-filter change
(onFilterChange calling resetAndReload), and the arrival of a fetch
response. -/
inductive EngineEvent where
  | scrollLoadMore
  | filterChange (showOnlyFavorites : Bool)
  | complete (k : FetchKind) (o : FetchOutcome)
deriving DecidableEq, Repr

/-- One component step per event. -/
def stepEngine (s : DiaryState) (ev : EngineEvent) : DiaryState :=
  match ev with
  | .scrollLoadMore => loadMoreRecords s
  | .filterChange b => resetAndReload { s with showOnlyFavorites := b }
  | .complete k o => completeFetch s k o

/-- Run the component over a sequence of events. -/
def runEngine (s : DiaryState) (es : List EngineEvent) : DiaryState :=
  es.foldl stepEngine s

/-- A state reached after one successful one-item initial page with page
size 1: idle, one record, more pages expected. -/
def c1Start : DiaryState :=
  { showOnlyFavorites := false
    allRecords := [⟨1, false, "a"⟩]
    filteredRecords := [⟨1, false, "a"⟩]
    isLoading := false
    hasMoreRecords := true
    page := 1
    size := 1
    pending := []
    calls := 1 }

/-- C1 is false as stated: the component has no request generation
counter; after a loadMore fetch is in flight and resetAndReload runs, the
stale response still appends its items to the cleared collection and
flips the loading flag. -/
theorem stale_response_mutates_state_counterexample :
    (completeFetch (resetAndReload (loadMoreRecords c1Start)) .more
        (.success [⟨2, false, "b"⟩])).allRecords
      ≠ (resetAndReload (loadMoreRecords c1Start)).allRecords
    ∧ (completeFetch (resetAndReload (loadMoreRecords c1Start)) .more
        (.success [⟨2, false, "b"⟩])).isLoading
      ≠ (resetAndReload (loadMoreRecords c1Start)).isLoading := by
  decide

/-- Deduplicating against an empty collection keeps the whole batch. -/
theorem removeDuplicates_nil_left (data : List RecordItem) :
    removeDuplicates [] data = data := by
  unfold removeDuplicates
  simp

/-- A pending list holding a loadMore fetch reports it. -/
theorem contains_more_of_append (l : List FetchKind) :
    ((l ++ [FetchKind.more]) ++ [FetchKind.initial]).contains FetchKind.more = true := by
  simp

/-- C1 corrected: with a loadMore fetch in flight, resetAndReload clears
the collection and starts a reload, but the stale pre-reset response is
applied on arrival: the cleared collection becomes exactly the stale
batch and the loading flag of the reload is cleared. -/
theorem stale_response_applied_after_reset (s : DiaryState) (data : List RecordItem)
    (hL : s.isLoading = false) (hM : s.hasMoreRecords = true) (hd : data ≠ []) :
    (resetAndReload (loadMoreRecords s)).allRecords = []
    ∧ (resetAndReload (loadMoreRecords s)).isLoading = true
    ∧ (completeFetch (resetAndReload (loadMoreRecords s)) .more (.success data)).allRecords
        = data
    ∧ (completeFetch (resetAndReload (loadMoreRecords s)) .more (.success data)).allRecords
        ≠ (resetAndReload (loadMoreRecords s)).allRecords
    ∧ (completeFetch (resetAndReload (loadMoreRecords s)) .more (.success data)).isLoading
        = false := by
  have h1 : loadMoreRecords s =
      { s with isLoading := true, page := s.page + 1,
               pending := s.pending ++ [.more], calls := s.calls + 1 } := by
    unfold loadMoreRecords
    rw [hL, hM]
    simp
  rw [h1]
  simp only [resetAndReload, loadInitialRecords]
  refine ⟨trivial, trivial, ?_, ?_, ?_⟩ <;>
    simp [completeFetch, contains_more_of_append, removeDuplicates_nil_left,
      updateFilteredRecords, checkIfHasMoreRecords, hd]

/-- Witness for the corrected C1, at the concrete pre-reset state. -/
theorem stale_response_applied_after_reset_witness :
    c1Start.isLoading = false ∧ c1Start.hasMoreRecords = true
    ∧ ([(⟨2, false, "b"⟩ : RecordItem)] ≠ [])
    ∧ (completeFetch (resetAndReload (loadMoreRecords c1Start)) .more
        (.success [⟨2, false, "b"⟩])).allRecords = [⟨2, false, "b"⟩] :=
  ⟨rfl, rfl, by decide,
    (stale_response_applied_after_reset c1Start [⟨2, false, "b"⟩] rfl rfl (by decide)).2.2.1⟩

/-! ## Single-flight invariant (C2) -/

/-- At most one fetch pending, with the loading flag tracking pendency. -/
def singleFlightInv (s : DiaryState) : Prop :=
  s.pending.length ≤ 1 ∧ (s.isLoading = true ↔ s.pending ≠ [])

/-- Removing the contained kind from a pending list of length at most one
empties it. -/
theorem removeFirstKind_of_short_contains (l : List FetchKind) (k : FetchKind)
    (hlen : l.length ≤ 1) (hc : l.contains k = true) : removeFirstKind l k = [] := by
  match l with
  | [] => simp at hc
  | [x] =>
    have hx : k = x := by simpa using hc
    subst hx
    simp [removeFirstKind]
  | x :: y :: rest => simp at hlen

/-- Every event other than a filter change preserves the single-flight
invariant. -/
theorem stepEngine_preserves_singleFlight (s : DiaryState) (ev : EngineEvent)
    (hinv : singleFlightInv s) (hev : ∀ b, ev ≠ .filterChange b) :
    singleFlightInv (stepEngine s ev) := by
  obtain ⟨hlen, hiff⟩ := hinv
  cases ev with
  | filterChange b => exact absurd rfl (hev b)
  | scrollLoadMore =>
    simp only [stepEngine]
    unfold loadMoreRecords
    by_cases hcond : (s.isLoading || !s.hasMoreRecords) = true
    · rw [if_pos hcond]; exact ⟨hlen, hiff⟩
    · rw [if_neg hcond]
      have hL : s.isLoading = false := by
        rcases Bool.or_eq_false_iff.mp (Bool.not_eq_true _ ▸ (by simpa using hcond) :
          (s.isLoading || !s.hasMoreRecords) = false) with ⟨h, _⟩
        exact h
      have hp : s.pending = [] := by
        by_contra hne
        have := hiff.mpr hne
        rw [hL] at this
        exact Bool.false_ne_true this
      constructor
      · simp [hp]
      · simp [hp]
  | complete k o =>
    simp only [stepEngine]
    unfold completeFetch
    by_cases hc : s.pending.contains k = true
    · rw [if_pos hc]
      have hrem : removeFirstKind s.pending k = [] :=
        removeFirstKind_of_short_contains s.pending k hlen hc
      cases k <;> cases o <;>
        simp [singleFlightInv, hrem, updateFilteredRecords, checkIfHasMoreRecords]
    · rw [if_neg hc]; exact ⟨hlen, hiff⟩

/-- C2: loadMoreRecords is a no-op while a fetch is outstanding; two
invocations in immediate succession with no intervening completion
dispatch exactly one Transport Layer call; and along any event sequence
free of filter changes, at most one fetch is ever in flight. -/
theorem requestMore_single_flight :
    (∀ s : DiaryState, s.isLoading = true → loadMoreRecords s = s)
    ∧ (∀ s : DiaryState, s.isLoading = false → s.hasMoreRecords = true →
        (loadMoreRecords (loadMoreRecords s)).calls = s.calls + 1
        ∧ (loadMoreRecords (loadMoreRecords s)).pending = s.pending ++ [.more])
    ∧ (∀ (es : List EngineEvent) (s : DiaryState), singleFlightInv s →
        (∀ ev ∈ es, ∀ b, ev ≠ .filterChange b) →
        (runEngine s es).pending.length ≤ 1) := by
  refine ⟨?_, ?_, ?_⟩
  · intro s h
    unfold loadMoreRecords
    rw [h]
    simp
  · intro s hL hM
    have h1 : loadMoreRecords s =
        { s with isLoading := true, page := s.page + 1,
                 pending := s.pending ++ [.more], calls := s.calls + 1 } := by
      unfold loadMoreRecords
      rw [hL, hM]
      simp
    rw [h1]
    have h2 : loadMoreRecords
        { s with isLoading := true, page := s.page + 1,
                 pending := s.pending ++ [.more], calls := s.calls + 1 } =
        { s with isLoading := true, page := s.page + 1,
                 pending := s.pending ++ [.more], calls := s.calls + 1 } := by
      unfold loadMoreRecords
      simp
    rw [h2]
    exact ⟨rfl, rfl⟩
  · intro es
    induction es with
    | nil => intro s hinv _; exact hinv.1
    | cons ev es ih =>
      intro s hinv hall
      exact ih (stepEngine s ev)
        (stepEngine_preserves_singleFlight s ev hinv (hall ev (by simp)))
        (fun x hx b => hall x (by simp [hx]) b)

/-- Witness for C2: from the freshly constructed component, two immediate
scroll triggers dispatch one call and keep a single fetch pending. -/
theorem requestMore_single_flight_witness :
    initialDiaryState.isLoading = false ∧ initialDiaryState.hasMoreRecords = true
    ∧ (loadMoreRecords (loadMoreRecords initialDiaryState)).calls
        = initialDiaryState.calls + 1
    ∧ singleFlightInv initialDiaryState
    ∧ (∀ ev ∈ [EngineEvent.scrollLoadMore, EngineEvent.scrollLoadMore],
        ∀ b, ev ≠ .filterChange b)
    ∧ (runEngine initialDiaryState
        [EngineEvent.scrollLoadMore, EngineEvent.scrollLoadMore]).pending.length ≤ 1 :=
  ⟨rfl, rfl, (requestMore_single_flight.2.1 initialDiaryState rfl rfl).1,
    by constructor <;> simp [initialDiaryState],
    by decide,
    requestMore_single_flight.2.2 [.scrollLoadMore, .scrollLoadMore] initialDiaryState
      ⟨by decide, by simp [initialDiaryState]⟩ (by decide)⟩

/-! ## Completion detection (C6) -/

/-- A record with the given id, not favorite, empty payload. -/
def mkRecord (n : Nat) : RecordItem := ⟨n, false, ""⟩

/-- The first page of the example scenario: ten records. -/
def pageOne : List RecordItem :=
  [mkRecord 1, mkRecord 2, mkRecord 3, mkRecord 4, mkRecord 5,
   mkRecord 6, mkRecord 7, mkRecord 8, mkRecord 9, mkRecord 10]

/-- The second page of the example scenario: four records. -/
def pageTwo : List RecordItem :=
  [mkRecord 11, mkRecord 12, mkRecord 13, mkRecord 14]

/-- Scenario state after ngOnInit dispatches the initial load. -/
def c6s1 : DiaryState := loadInitialRecords initialDiaryState

/-- Scenario state after the first page of ten arrives. -/
def c6s2 : DiaryState := completeFetch c6s1 .initial (.success pageOne)

/-- Scenario state after the scroll trigger dispatches the next page. -/
def c6s3 : DiaryState := loadMoreRecords c6s2

/-- Scenario state after the second page of four arrives. -/
def c6s4 : DiaryState := completeFetch c6s3 .more (.success pageTwo)

/-- C6 is false as stated: a fetch returning eleven items against page
size ten also marks the engine complete, though eleven is not smaller
than ten. -/
theorem completion_rule_counterexample :
    ¬ (((checkIfHasMoreRecords initialDiaryState 11).hasMoreRecords = false) ↔ 11 < 10) := by
  decide

/-- C6 amended: after a successful fetch the engine is complete exactly
when the returned count differs from the requested page size (equivalent
to smaller-than whenever the server never returns more than requested);
in the example scenario, a first page of 10 leaves more expected and a
page-2 request dispatched, and a second page of 4 completes the engine
with 14 items. -/
theorem completion_rule_amended :
    (∀ (s : DiaryState) (count : Nat),
        ((checkIfHasMoreRecords s count).hasMoreRecords = false) ↔ count ≠ s.size)
    ∧ (c6s2.hasMoreRecords = true ∧ c6s2.allRecords.length = 10
        ∧ c6s3.page = 2 ∧ c6s3.calls = c6s2.calls + 1
        ∧ c6s4.hasMoreRecords = false ∧ c6s4.allRecords.length = 14) := by
  constructor
  · intro s count
    simp [checkIfHasMoreRecords]
  · decide

/-! ## Dedup merge and the no-duplicate-id invariant (C9) -/

/-- The ids of a record collection, in order. -/
def recordIds (l : List RecordItem) : List Nat := l.map (fun r => r.id)

/-- A state with one record loaded and a loadMore fetch in flight. -/
def c9Start : DiaryState :=
  { initialDiaryState with
      allRecords := [mkRecord 1]
      filteredRecords := [mkRecord 1]
      isLoading := true
      page := 2
      pending := [.more]
      calls := 2 }

/-- C9 is false as stated: a single fetched batch carrying two items with
the same fresh id passes the dedup filter twice, so the merged collection
holds two items with the same id. -/
theorem dedup_invariant_counterexample :
    ¬ (recordIds (completeFetch c9Start .more
        (.success [⟨2, false, "x"⟩, ⟨2, true, "y"⟩])).allRecords).Nodup := by
  decide

/-- Success batches delivered by complete events carry no internal
duplicate ids. -/
def nodupBatches : EngineEvent → Prop
  | .complete _ (.success data) => (recordIds data).Nodup
  | _ => True

instance (ev : EngineEvent) : Decidable (nodupBatches ev) := by
  cases ev with
  | complete k o =>
    cases o with
    | success data => exact (inferInstance : Decidable ((recordIds data).Nodup))
    | failure e => exact isTrue trivial
  | scrollLoadMore => exact isTrue trivial
  | filterChange b => exact isTrue trivial

/-- Merging a batch with internally distinct ids into a collection with
distinct ids yields a collection with distinct ids. -/
theorem nodup_merge (existing data : List RecordItem)
    (h1 : (recordIds existing).Nodup) (h2 : (recordIds data).Nodup) :
    (recordIds (existing ++ removeDuplicates existing data)).Nodup := by
  unfold recordIds removeDuplicates at *
  rw [List.map_append]
  refine List.Nodup.append h1 (h2.sublist ((List.filter_sublist data).map _)) ?_
  intro x hx hx2
  simp only [List.mem_map] at hx2
  obtain ⟨r, hr, hrid⟩ := hx2
  rw [List.mem_filter] at hr
  have hnm : r.id ∉ List.map (fun r => r.id) existing := by simpa using hr.2
  exact hnm (hrid ▸ hx)

/-- Every event whose batches are internally duplicate-free preserves
distinctness of the collection ids. -/
theorem stepEngine_preserves_nodup (s : DiaryState) (ev : EngineEvent)
    (hs : (recordIds s.allRecords).Nodup) (hb : nodupBatches ev) :
    (recordIds (stepEngine s ev).allRecords).Nodup := by
  cases ev with
  | scrollLoadMore =>
    simp only [stepEngine]
    unfold loadMoreRecords
    split
    · exact hs
    · exact hs
  | filterChange b =>
    simp [stepEngine, resetAndReload, loadInitialRecords, recordIds]
  | complete k o =>
    simp only [stepEngine]
    unfold completeFetch
    split
    · cases k with
      | initial =>
        cases o with
        | success data =>
          simpa [updateFilteredRecords, checkIfHasMoreRecords] using hb
        | failure e => simp [updateFilteredRecords, recordIds]
      | more =>
        cases o with
        | success data =>
          simp only [updateFilteredRecords, checkIfHasMoreRecords]
          exact nodup_merge s.allRecords data hs hb
        | failure e => exact hs
    · exact hs

/-- C9 amended: the merge appends, in arrival order, exactly the fetched
items whose id is absent from the pre-merge collection and keeps every
existing item unchanged; since the filter checks only against existing
items, the no-duplicate-id invariant holds along every run provided each
successful batch carries no internal duplicate ids. -/
theorem merge_dedup_amended :
    (∀ (existing data : List RecordItem) (r : RecordItem),
        r ∈ removeDuplicates existing data ↔ r ∈ data ∧ r.id ∉ recordIds existing)
    ∧ (∀ (s : DiaryState) (data : List RecordItem), s.pending.contains .more = true →
        (completeFetch s .more (.success data)).allRecords
          = s.allRecords ++ removeDuplicates s.allRecords data)
    ∧ (∀ (es : List EngineEvent) (s : DiaryState), (recordIds s.allRecords).Nodup →
        (∀ ev ∈ es, nodupBatches ev) →
        (recordIds (runEngine s es).allRecords).Nodup) := by
  refine ⟨?_, ?_, ?_⟩
  · intro existing data r
    unfold removeDuplicates recordIds
    simp [List.mem_filter]
  · intro s data hc
    unfold completeFetch
    rw [if_pos hc]
    simp [updateFilteredRecords, checkIfHasMoreRecords]
  · intro es
    induction es with
    | nil => intro s hs _; exact hs
    | cons ev es ih =>
      intro s hs hall
      exact ih (stepEngine s ev)
        (stepEngine_preserves_nodup s ev hs (hall ev (by simp)))
        (fun x hx => hall x (by simp [hx]))

/-- Witness for the amended C9: a run that loads two batches with fresh
distinct ids keeps all collection ids distinct. -/
theorem merge_dedup_amended_witness :
    (recordIds initialDiaryState.allRecords).Nodup
    ∧ (∀ ev ∈ [EngineEvent.scrollLoadMore,
          EngineEvent.complete .more (.success [mkRecord 1, mkRecord 2])],
        nodupBatches ev)
    ∧ (recordIds (runEngine initialDiaryState
        [EngineEvent.scrollLoadMore,
         EngineEvent.complete .more (.success [mkRecord 1, mkRecord 2])]).allRecords).Nodup :=
  ⟨by decide, by decide,
    merge_dedup_amended.2.2
      [.scrollLoadMore, .complete .more (.success [mkRecord 1, mkRecord 2])]
      initialDiaryState (by decide) (by decide)⟩

/-! ## Optimistic favorite toggle with rollback (C7)

Two implementations exist: the signal-based diary page (records and
showOnlyFavorites signals) and the array-based one (allRecords written in
place). Both are embedded. -/

/-- The signal-based diary page state: the records signal and the
favorites filter flag. -/
structure Diary2State where
  records : List RecordItem
  showOnlyFavorites : Bool
deriving DecidableEq, Repr

/-- updateRecordFavoriteState: rewrite the favorite flag on every record
matching the id, keeping all other fields. -/
def updateRecordFavoriteState (records : List RecordItem) (recordId : Nat)
    (isFavorite : Bool) : List RecordItem :=
  records.map (fun r => if r.id == recordId then { r with isFavorite := isFavorite } else r)

/-- removeRecordFromList: drop every record matching the id. -/
def removeRecordFromList (records : List RecordItem) (recordId : Nat) : List RecordItem :=
  records.filter (fun r => r.id != recordId)

/-- The synchronous part of onFavoriteToggled: the card hands the record
already carrying the flipped flag; the list is rewritten with it, and when
the favorites-only filter is active and the record was unfavorited, the
record is removed from the list before the mutation is issued. -/
def onFavoriteToggledSync (s : Diary2State) (record : RecordItem) : Diary2State :=
  let s1 := { s with
    records := updateRecordFavoriteState s.records record.id record.isFavorite }
  if s.showOnlyFavorites && !record.isFavorite then
    { s1 with records := removeRecordFromList s1.records record.id }
  else s1

/-- The catchError branch of onFavoriteToggled: rewrite the list with
previousFavoriteState, the negation of the toggled flag. -/
def onFavoriteToggledRollback (s : Diary2State) (record : RecordItem) : Diary2State :=
  { s with
    records := updateRecordFavoriteState s.records record.id (!record.isFavorite) }

/-- The array-based page writes the incoming flag onto the first record
found with the id, keeping the rest of the list. -/
def setFavoriteFirstMatch : List RecordItem → Nat → Bool → List RecordItem
  | [], _, _ => []
  | r :: rs, recordId, value =>
    if r.id == recordId then { r with isFavorite := value } :: rs
    else r :: setFavoriteFirstMatch rs recordId value

/-- onFavoriteChanged (array-based page): when a record with the id is
found, write the incoming flag onto it and refresh the filtered list. -/
def onFavoriteChanged (s : DiaryState) (current : RecordItem) : DiaryState :=
  if s.allRecords.any (fun r => r.id == current.id) then
    updateFilteredRecords
      { s with allRecords :=
          setFavoriteFirstMatch s.allRecords current.id current.isFavorite }
  else s

/-- The catchError branch of updateFavoriteInBackend (array-based page):
when a record with the id is found, restore the negated incoming flag and
refresh the filtered list. -/
def updateFavoriteRollback (s : DiaryState) (record : RecordItem) : DiaryState :=
  if s.allRecords.any (fun r => r.id == record.id) then
    updateFilteredRecords
      { s with allRecords :=
          setFavoriteFirstMatch s.allRecords record.id (!record.isFavorite) }
  else s

/-- C7 is false as stated: with the favorites-only filter active, an
unfavorite toggle removes the item from the list, so the rollback after a
failed mutation finds nothing to rewrite and the pre-toggle value is not
restored — the item is gone. -/
theorem toggle_rollback_counterexample :
    (onFavoriteToggledRollback
        (onFavoriteToggledSync ⟨[⟨1, true, "t"⟩], true⟩ ⟨1, false, "t"⟩)
        ⟨1, false, "t"⟩).records = []
    ∧ (⟨[⟨1, true, "t"⟩], true⟩ : Diary2State).records ≠ [] := by
  decide

/-- Toggling then rolling back through the map-based rewrite restores the
original list when every record carrying the id held the pre-toggle
value. -/
theorem updateRecordFavoriteState_rollback (recordId : Nat) (v : Bool)
    (l : List RecordItem) (h : ∀ r ∈ l, r.id = recordId → r.isFavorite = !v) :
    updateRecordFavoriteState (updateRecordFavoriteState l recordId v) recordId (!v) = l := by
  induction l with
  | nil => rfl
  | cons r rs ih =>
    have ihr := ih (fun x hx hid => h x (by simp [hx]) hid)
    by_cases hid : (r.id == recordId) = true
    · have hfav : r.isFavorite = !v := h r (by simp) (by simpa using hid)
      simp only [updateRecordFavoriteState, List.map_cons] at ihr ⊢
      simp only [hid, if_true]
      rw [ihr]
      have hr : ({ r with isFavorite := !v } : RecordItem) = r := by
        cases r
        simp_all
      rw [hr]
    · have hid2 : (r.id == recordId) = false := by simpa using hid
      simp only [updateRecordFavoriteState, List.map_cons] at ihr ⊢
      simp only [hid2, Bool.false_eq_true, if_false]
      rw [ihr]

/-- Toggling then rolling back through the first-match rewrite restores
the original list when every record carrying the id held the pre-toggle
value. -/
theorem setFavoriteFirstMatch_rollback (recordId : Nat) (v : Bool)
    (l : List RecordItem) (h : ∀ r ∈ l, r.id = recordId → r.isFavorite = !v) :
    setFavoriteFirstMatch (setFavoriteFirstMatch l recordId v) recordId (!v) = l := by
  induction l with
  | nil => rfl
  | cons r rs ih =>
    by_cases hid : (r.id == recordId) = true
    · have hfav : r.isFavorite = !v := h r (by simp) (by simpa using hid)
      simp only [setFavoriteFirstMatch, hid, if_true]
      have hr : ({ r with isFavorite := !v } : RecordItem) = r := by
        cases r
        simp_all
      rw [hr]
    · have hid2 : (r.id == recordId) = false := by simpa using hid
      simp only [setFavoriteFirstMatch, hid2, Bool.false_eq_true, if_false]
      rw [ih (fun x hx hidx => h x (by simp [hx]) hidx)]

/-- The first-match rewrite does not change which ids the list holds. -/
theorem setFavoriteFirstMatch_any (recordId : Nat) (v : Bool) (l : List RecordItem) :
    (setFavoriteFirstMatch l recordId v).any (fun r => r.id == recordId)
      = l.any (fun r => r.id == recordId) := by
  induction l with
  | nil => rfl
  | cons r rs ih =>
    by_cases hid : (r.id == recordId) = true
    · simp [setFavoriteFirstMatch, hid]
    · have hid2 : (r.id == recordId) = false := by simpa using hid
      simp only [setFavoriteFirstMatch, hid2, Bool.false_eq_true, if_false, List.any_cons, ih]

/-- C7 amended: the toggle writes the flipped flag synchronously, keeping
every other field, and a failed mutation restores the pre-toggle list
exactly — provided the favorites-only removal path did not drop the item
(signal-based page), in which case the rollback is a no-op on a list no
longer holding it; the array-based page restores unconditionally. -/
theorem toggle_rollback_amended :
    (∀ (s : Diary2State) (record r : RecordItem),
        r ∈ (onFavoriteToggledSync s record).records → r.id = record.id →
        r.isFavorite = record.isFavorite)
    ∧ (∀ (s : Diary2State) (record : RecordItem),
        (s.showOnlyFavorites && !record.isFavorite) = false →
        (∀ r ∈ s.records, r.id = record.id → r.isFavorite = !record.isFavorite) →
        (onFavoriteToggledRollback (onFavoriteToggledSync s record) record).records
          = s.records)
    ∧ (∀ (s : DiaryState) (current : RecordItem),
        (∀ r ∈ s.allRecords, r.id = current.id → r.isFavorite = !current.isFavorite) →
        (updateFavoriteRollback (onFavoriteChanged s current) current).allRecords
          = s.allRecords) := by
  refine ⟨?_, ?_, ?_⟩
  · intro s record r hmem hid
    unfold onFavoriteToggledSync at hmem
    by_cases hcond : (s.showOnlyFavorites && !record.isFavorite) = true
    · rw [if_pos hcond] at hmem
      simp only [removeRecordFromList, List.mem_filter] at hmem
      exact absurd (by simpa using hid) (by simpa using hmem.2)
    · rw [if_neg hcond] at hmem
      simp only [updateRecordFavoriteState, List.mem_map] at hmem
      obtain ⟨r0, _, hr0⟩ := hmem
      by_cases h0 : (r0.id == record.id) = true
      · rw [if_pos h0] at hr0
        rw [← hr0]
      · rw [if_neg h0] at hr0
        exact absurd (by simpa using (hr0 ▸ hid)) (by simpa using h0)
  · intro s record hcond h
    unfold onFavoriteToggledSync
    rw [if_neg (by simp [hcond])]
    unfold onFavoriteToggledRollback
    simp only
    rw [updateRecordFavoriteState_rollback record.id record.isFavorite s.records h]
  · intro s current h
    unfold onFavoriteChanged
    by_cases hany : (s.allRecords.any (fun r => r.id == current.id)) = true
    · rw [if_pos hany]
      unfold updateFavoriteRollback
      simp only [updateFilteredRecords]
      rw [if_pos (by simpa [setFavoriteFirstMatch_any] using hany)]
      simp only
      rw [setFavoriteFirstMatch_rollback current.id current.isFavorite s.allRecords h]
    · rw [if_neg hany]
      unfold updateFavoriteRollback
      rw [if_neg hany]

/-- Witness for the amended C7, on both pages at a concrete record. -/
theorem toggle_rollback_amended_witness :
    ((⟨[⟨1, true, "x"⟩], false⟩ : Diary2State).showOnlyFavorites
        && !(⟨1, false, "x"⟩ : RecordItem).isFavorite) = false
    ∧ (∀ r ∈ (⟨[⟨1, true, "x"⟩], false⟩ : Diary2State).records,
        r.id = (⟨1, false, "x"⟩ : RecordItem).id →
        r.isFavorite = !(⟨1, false, "x"⟩ : RecordItem).isFavorite)
    ∧ (onFavoriteToggledRollback
        (onFavoriteToggledSync ⟨[⟨1, true, "x"⟩], false⟩ ⟨1, false, "x"⟩)
        ⟨1, false, "x"⟩).records = [⟨1, true, "x"⟩] :=
  ⟨by decide, by decide,
    toggle_rollback_amended.2.1 ⟨[⟨1, true, "x"⟩], false⟩ ⟨1, false, "x"⟩
      (by decide) (by decide)⟩

end MemoryTrails
